import Mathlib

/-!
Verification development for the mrf_yzzy tool (src/mrf_yzzy.cpp), a chunked
Y/Z axis transpose over a 3-D tiled raster.  The definitions below are a
shallow embedding of the program: the stride computations (lines 171-174),
the chunk-extent computations (lines 189, 200, 221), the three-level chunk
loop with its strided read and write calls (lines 188-264), the early exit
paths of main (lines 31-106, 179-180), the per-slice metadata writes
(lines 206-216), the per-chunk progress printing (lines 157-163, 222), and
the unchecked per-slice handle plumbing (lines 191-197, 202-217, 226-256).
Machine integers are modelled as Nat (the quantities involved are raster
extents and byte offsets, nonnegative in every reachable state) except the
loop counter analysis, where Int captures a negative page size.
-/

/-- Iteration starts of a C loop, for s = 0; s toLt size; s += step, listed in
order.  The fuel argument bounds the recursion; fuel = size suffices for any
step of at least 1, which is the only regime in which the C loop terminates. -/
def startsAux : Nat → Nat → Nat → Nat → List Nat
  | 0, _, _, _ => []
  | fuel + 1, size, step, s => if s < size then s :: startsAux fuel size step (s + step) else []

/-- Iteration starts of the chunk loops in main, lines 188, 199 and 220. -/
def starts (size step : Nat) : List Nat :=
  startsAux size size step 0

/-- Line 171: pixel stride in bytes, the element size. -/
def pix_stride (dtsz : Nat) : Nat := dtsz

/-- Line 172: line stride in bytes. -/
def line_stride (pszx dtsz : Nat) : Nat := pszx * pix_stride dtsz

/-- Line 173: depth stride in bytes, one full line block per buffer row. -/
def z_stride (pszy pszx dtsz : Nat) : Nat := pszy * line_stride pszx dtsz

/-- Line 174: band stride in bytes, one full depth block per band. -/
def band_stride (psz pszy pszx dtsz : Nat) : Nat := psz * z_stride pszy pszx dtsz

/-- Resolved configuration of one run: source extents (xsz, ysz, zsz, csz)
and the chunk shape (psz, pszy, pszx) plus element byte width dtsz, as read
from the source dataset in lines 78-106. -/
structure Params where
  xsz : Nat
  ysz : Nat
  zsz : Nat
  csz : Nat
  psz : Nat
  pszy : Nat
  pszx : Nat
  dtsz : Nat

/-- Line 221: the X extent of the current chunk.  The source computes
min(pszx, xsz - starty), reading the Y loop variable, not the X one. -/
def dxOf (p : Params) (starty : Nat) : Nat := min p.pszx (p.xsz - starty)

/-- Line 200: the Y extent of the current chunk, min(pszy, ysz - starty). -/
def dyOf (p : Params) (starty : Nat) : Nat := min p.pszy (p.ysz - starty)

/-- Line 189: the Z extent of the current chunk, min(psz, zsz - startz). -/
def dzOf (p : Params) (startz : Nat) : Nat := min p.psz (p.zsz - startz)

/-- All (band, row, column) index triples of one strided raster copy, in
lexicographic order: bands 0..n1-1, rows 0..n2-1, columns 0..n3-1. -/
def tripleRange (n1 n2 n3 : Nat) : List (Nat × Nat × Nat) :=
  (List.range n1).flatMap fun b =>
    (List.range n2).flatMap fun r =>
      (List.range n3).map fun c => (b, r, c)

/-- The working buffer, addressed by byte offset; each stored element value
sits at the byte offset where the strided copy places its first byte. -/
def Buf (α : Type) : Type := Nat → α

/-- The destination dataset tree: a value for every
(slice index, x, row, band) address.  The slice index is the integer in the
Z component of the created dataset name (line 205), the row is the y
coordinate the write call addresses inside that slice. -/
def Dst (α : Type) : Type := (Nat × Nat × Nat × Nat) → α

/-- Lines 234-239: one strided read of the (startx, starty, dx, dy) window of
source slice startz + z into the buffer at base offset z_stride * z, with
pixel stride pix_stride, line stride line_stride and band stride band_stride,
over all csz bands. -/
def readCall {α : Type} (p : Params) (src : Nat → Nat → Nat → Nat → α)
    (startz starty startx dx dy z : Nat) (buf : Buf α) : Buf α :=
  (tripleRange p.csz dy dx).foldl
    (fun bf t =>
      Function.update bf
        (z_stride p.pszy p.pszx p.dtsz * z
          + t.1 * band_stride p.psz p.pszy p.pszx p.dtsz
          + t.2.1 * line_stride p.pszx p.dtsz
          + t.2.2 * pix_stride p.dtsz)
        (src (startx + t.2.2) (starty + t.2.1) (startz + z) t.1))
    buf

/-- Lines 250-255: one strided write of the (startx, startz, dx, dz) window of
destination slice starty + endz, read from the buffer at base offset
endz * line_stride, with pixel stride pix_stride, row stride z_stride and
band stride band_stride, over all csz bands. -/
def writeCall {α : Type} (p : Params) (buf : Buf α)
    (startz starty startx dx dz endz : Nat) (dst : Dst α) : Dst α :=
  (tripleRange p.csz dz dx).foldl
    (fun d t =>
      Function.update d (starty + endz, startx + t.2.2, startz + t.2.1, t.1)
        (buf (endz * line_stride p.pszx p.dtsz
          + t.1 * band_stride p.psz p.pszy p.pszx p.dtsz
          + t.2.1 * z_stride p.pszy p.pszx p.dtsz
          + t.2.2 * pix_stride p.dtsz)))
    dst

/-- Lines 219-257: the body of the X loop.  It computes the chunk extents,
reads one cublock (all dz source slices) into the buffer, then writes it out
to all dy destination slices. -/
def xChunk {α : Type} (p : Params) (src : Nat → Nat → Nat → Nat → α)
    (startz starty startx : Nat) (st : Buf α × Dst α) : Buf α × Dst α :=
  let dz := dzOf p startz
  let dy := dyOf p starty
  let dx := dxOf p starty
  let buf := (List.range dz).foldl
    (fun bf z => readCall p src startz starty startx dx dy z bf) st.1
  let dst := (List.range dy).foldl
    (fun d endz => writeCall p buf startz starty startx dx dz endz d) st.2
  (buf, dst)

/-- Lines 188-264: the three-level chunk loop, Z outer, Y middle, X inner,
threading the working buffer and the destination state through every chunk. -/
def transposeRun {α : Type} (p : Params) (src : Nat → Nat → Nat → Nat → α)
    (buf0 : Buf α) (dst0 : Dst α) : Buf α × Dst α :=
  (starts p.zsz p.psz).foldl
    (fun st startz =>
      (starts p.ysz p.pszy).foldl
        (fun st starty =>
          (starts p.xsz p.pszx).foldl
            (fun st startx => xChunk p src startz starty startx st) st)
        st)
    (buf0, dst0)

/-- The destination produced by one full run of the chunk loops. -/
def transposeDst {α : Type} (p : Params) (src : Nat → Nat → Nat → Nat → α)
    (buf0 : Buf α) (dst0 : Dst α) : Dst α :=
  (transposeRun p src buf0 dst0).2

/-- Reading the produced destination tree back as a volume: voxel (x, y, z, b)
of the new dataset is the value of slice z at coordinate (x, y), band b. -/
def asVolume {α : Type} (d : Dst α) : Nat → Nat → Nat → Nat → α :=
  fun x y z b => d (z, x, y, b)

/-- All-zero working buffer contents. -/
def zeroBuf : Buf Nat := fun _ => 0

/-- All-zero initial destination contents. -/
def zeroDst : Dst Nat := fun _ => 0

/-- Source volume of the boundary scenario: extents 1 x 2 x 1, one band,
every chunk extent 1, one byte elements.  The Y extent 2 exceeds the X
extent 1, so the Y loop visits starty = 1 while the X extent left of any
startx is still 1. -/
def pA : Params := ⟨1, 2, 1, 1, 1, 1, 1, 1⟩

/-- Concrete source voxel values for the boundary scenario: the value
records the Y coordinate, so every voxel is nonzero and distinct per Y. -/
def srcA : Nat → Nat → Nat → Nat → Nat := fun _ y _ _ => y + 1

/-- The destination tree the program produces on the boundary scenario. -/
def dstA : Dst Nat := transposeDst pA srcA zeroBuf zeroDst

/-- Configuration of the second, re-swapping run over the first output: its
extents are those of the produced dataset (X 1, Y 1, Z 2), and its chunk
shape follows the same rules (the created block size is
BLOCKXSIZE = pszx = 1, BLOCKYSIZE = psz = 1, and the page size defaults to
the tile width 1). -/
def pB : Params := ⟨1, 1, 2, 1, 1, 1, 1, 1⟩

/-- The first output read back as a volume, the source of the second run. -/
def srcB : Nat → Nat → Nat → Nat → Nat := asVolume dstA

/-- The destination tree of the second, re-swapping run. -/
def dstB : Dst Nat := transposeDst pB srcB zeroBuf zeroDst

/-- Configuration whose X extent 10 is not divisible by the tile width 4:
the X loop visits startx = 8 where only 2 columns remain. -/
def pC : Params := ⟨10, 12, 4, 1, 4, 4, 4, 1⟩

/-- Configuration with distinct chunk extents psz = 2, pszy = 3, pszx = 5
and a partial final Y chunk (ysz = 7, so dy = 1 at starty = 6), which
separates the four stride quantities from one another. -/
def pD : Params := ⟨5, 7, 7, 2, 2, 3, 5, 1⟩

/-- A buffer whose content at byte offset n is n, so a lookup reveals the
offset the write call addressed. -/
def idBuf : Buf Nat := fun off => off

/-- Smallest all-positive configuration: a single 1 x 1 x 1 chunk. -/
def pE : Params := ⟨1, 1, 1, 1, 1, 1, 1, 1⟩

/-- Modelled from the spec: section 4.1 stride formula, instantiated as the
spec says the write orientation uses it, with outer extent dy and depth
extent psz: pixel, line, depth and band strides in that order. -/
def specWriteStrides (dy psz pszx e : Nat) : Nat × Nat × Nat × Nat :=
  (e, pszx * e, psz * (pszx * e), dy * (psz * (pszx * e)))

/-- The run environment of main that decides its early exit paths: whether
the MRF driver is registered (line 31), how many positional file names were
given (line 56), whether the source opens (line 62), whether its driver is
MRF (line 70), whether ZSIZE metadata is present (line 76) and its parsed
value (line 78), the Y size (line 82), and whether the buffer allocation
succeeds (line 179). -/
structure Env where
  driverFound : Bool
  fnameCount : Nat
  openOk : Bool
  isMRF : Bool
  zsizePresent : Bool
  zsizeVal : Int
  ysizeVal : Nat
  allocOk : Bool

/-- The process exit code of main along its guard chain: driver missing
(line 33) and wrong argument count (line 57) return 1 through Usage, a
failed source open returns 0 (line 67), a non-MRF input (line 71) and a
missing ZSIZE key (line 77) return 2, a failed allocation returns 3
(line 180), and a completed run returns 0 (line 267). -/
def mainExit (e : Env) : Int :=
  if e.driverFound = false then 1
  else if e.fnameCount ≠ 2 then 1
  else if e.openOk = false then 0
  else if e.isMRF = false then 2
  else if e.zsizePresent = false then 2
  else if e.allocOk = false then 3
  else 0

/-- Line 66: the diagnostic emitted when the source cannot be opened, on the
path where the driver was found and both file names were given. -/
def emitsOpenDiagnostic (e : Env) : Bool :=
  e.driverFound && (e.fnameCount == 2) && !e.openOk

/-- Whether control reaches the chunk loops of line 188: every guard of the
chain above passed. -/
def reachesLoops (e : Env) : Bool :=
  e.driverFound && (e.fnameCount == 2) && e.openOk && e.isMRF && e.zsizePresent && e.allocOk

/-- Whether any destination slice dataset is created (line 206): the loops
are reached, the Z loop is entered (0 toLt zsz) and the Y loop is entered. -/
def createsDest (e : Env) : Bool :=
  reachesLoops e && decide (0 < e.zsizeVal) && decide (0 < e.ysizeVal)

/-- Line 76-77: the only shape rejection main performs is on a missing ZSIZE
key; the parsed value itself is never tested. -/
def rejectedNot3D (e : Env) : Bool :=
  e.driverFound && (e.fnameCount == 2) && e.openOk && e.isMRF && !e.zsizePresent

/-- Lines 206-216: the per-band metadata state of one freshly created
destination slice.  Creation leaves every band without no-data or statistics;
the program then fetches band 1 only (line 207) and conditionally sets its
no-data value (lines 208-209) and statistics (lines 210-211).  The values
themselves are copied verbatim, so they are modelled as opaque integers. -/
def createdSliceBandMeta (hasNoData : Bool) (nd : Int) (hasStats : Bool)
    (stats : Int × Int × Int × Int) (band : Nat) :
    Option Int × Option (Int × Int × Int × Int) :=
  if band = 1 then
    ((if hasNoData then some nd else none), (if hasStats then some stats else none))
  else (none, none)

/-- The (startx, starty, startz) coordinate triples of every chunk the loops
process, in processing order, accumulated exactly as the loop nest of
lines 188-264 visits them. -/
def chunkTriples (p : Params) : List (Nat × Nat × Nat) :=
  (starts p.zsz p.psz).foldl
    (fun acc startz =>
      (starts p.ysz p.pszy).foldl
        (fun acc starty =>
          (starts p.xsz p.pszx).foldl
            (fun acc startx => acc ++ [(startx, starty, startz)]) acc)
        acc)
    []

/-- Line 222: the per-chunk Processing line is printed for every chunk on
every run; the statement is not guarded by the verbose flag, so the output
does not depend on it. -/
def printedChunkLines (_verbose : Bool) (p : Params) : List (Nat × Nat × Nat) :=
  chunkTriples p

/-- Lines 157-163: the resolved creation option list is printed only when
verbose is set. -/
def printedOptionLines (verbose : Bool) (copt : List String) : List String :=
  if verbose then copt else []

/-- Lines 104-106: the output page size default.  Only an exact zero is
replaced by the native tile width pszx; any other value, including a
negative one parsed from the -z argument, is kept. -/
def effPsz (pszArg pszx : Int) : Int :=
  if pszArg = 0 then pszx else pszArg

/-- Line 188: the value of the loop variable startz after k increments of
the for loop, which starts at 0 and adds psz each iteration. -/
def loopCounter (step : Int) : Nat → Int
  | 0 => 0
  | k + 1 => loopCounter step k + step

/-- Lines 191-197: the vector of source slice handles for one Z chunk.
GDALOpen may return a null handle, modelled as none; whatever it returns is
stored unchecked at position z. -/
def inhList (openSlice : Nat → Option Nat) (startz dz : Nat) : List (Option Nat) :=
  (List.range dz).map fun z => openSlice (startz + z)

/-- Lines 202-217: the vector of destination slice handles for one Y chunk.
GDALCreate may return a null handle, modelled as none; whatever it returns
is stored unchecked at position z. -/
def outhList (createSlice : Nat → Option Nat) (starty dy : Nat) : List (Option Nat) :=
  (List.range dy).map fun z => createSlice (starty + z)

/-- Lines 226-239: the handles handed to the strided read calls of one X
chunk, in order: entry z of the stored handle vector, with none standing for
a stored null handle (line 228 reads inh of z with no check). -/
def readPassHandles (openSlice : Nat → Option Nat) (startz dz : Nat) : List (Option Nat) :=
  (List.range dz).map fun z => (inhList openSlice startz dz).getD z none

/-- Lines 243-256: the handles handed to the strided write calls of one X
chunk, in order: entry endz of the stored handle vector, with no check. -/
def writePassHandles (createSlice : Nat → Option Nat) (starty dy : Nat) : List (Option Nat) :=
  (List.range dy).map fun z => (outhList createSlice starty dy).getD z none

/-- Lines 259-260 and 262-263: the handles handed to GDALClose at the end of
a Y chunk and of a Z chunk: every stored entry, with no check. -/
def closePassHandles (stored : List (Option Nat)) : List (Option Nat) :=
  (List.range stored.length).map fun i => stored.getD i none

/-- Run environment in which the source open fails and everything else is
healthy. -/
def envOpenFail : Env := ⟨true, 2, false, true, true, 4, 5, true⟩

/-- Run environment of a source whose ZSIZE metadata key is present with
value 0, everything else healthy. -/
def envZeroZsize : Env := ⟨true, 2, true, true, true, 0, 5, true⟩

/-- Run environment of a source with no ZSIZE metadata key at all. -/
def envNoZsize : Env := ⟨true, 2, true, true, false, 0, 5, true⟩

lemma foldl_update_not_mem {ι κ α : Type} [DecidableEq κ] (key : ι → κ) (val : ι → α)
    (l : List ι) (f : κ → α) (k : κ) (h : ∀ j ∈ l, key j ≠ k) :
    l.foldl (fun g j => Function.update g (key j) (val j)) f k = f k := by
  induction l generalizing f with
  | nil => rfl
  | cons x t ih =>
    simp only [List.foldl_cons]
    rw [ih _ fun j hj => h j (List.mem_cons_of_mem _ hj)]
    exact Function.update_noteq (Ne.symm (h x (List.mem_cons_self _ _))) _ _

lemma foldl_update_mem {ι κ α : Type} [DecidableEq κ] (key : ι → κ) (val : ι → α)
    (l : List ι) (f : κ → α) (i : ι) (hi : i ∈ l)
    (hinj : ∀ j ∈ l, key j = key i → j = i) :
    l.foldl (fun g j => Function.update g (key j) (val j)) f (key i) = val i := by
  induction l generalizing f with
  | nil => exact absurd hi (List.not_mem_nil i)
  | cons x t ih =>
    simp only [List.foldl_cons]
    by_cases hmem : i ∈ t
    · exact ih _ hmem fun j hj => hinj j (List.mem_cons_of_mem _ hj)
    · have hix : i = x := by
        rcases List.mem_cons.mp hi with h | h
        · exact h
        · exact absurd h hmem
      subst hix
      have hnone : ∀ j ∈ t, key j ≠ key i := by
        intro j hj hkey
        exact hmem (hinj j (List.mem_cons_of_mem _ hj) hkey ▸ hj)
      rw [foldl_update_not_mem key val t _ _ hnone]
      exact Function.update_same _ _ _

lemma mem_tripleRange {n1 n2 n3 b r c : Nat} :
    (b, r, c) ∈ tripleRange n1 n2 n3 ↔ b < n1 ∧ r < n2 ∧ c < n3 := by
  simp only [tripleRange, List.mem_flatMap, List.mem_map, List.mem_range, Prod.mk.injEq]
  constructor
  · rintro ⟨b1, hb1, r1, hr1, c1, hc1, hb, hr, hc⟩
    subst hb; subst hr; subst hc
    exact ⟨hb1, hr1, hc1⟩
  · rintro ⟨hb, hr, hc⟩
    exact ⟨b, hb, r, hr, c, hc, rfl, rfl, rfl⟩

lemma subset_foldl {β γ : Type} (g : List γ → β → List γ)
    (hg : ∀ acc x, acc ⊆ g acc x) : ∀ (l : List β) (acc : List γ), acc ⊆ l.foldl g acc := by
  intro l
  induction l with
  | nil => intro acc a ha; exact ha
  | cons x t ih => intro acc a ha; exact ih (g acc x) (hg acc x ha)

lemma starts_head {size step : Nat} (h : 0 < size) :
    ∃ t, starts size step = 0 :: t := by
  obtain ⟨n, rfl⟩ := Nat.exists_eq_succ_of_ne_zero (Nat.pos_iff_ne_zero.mp h)
  exact ⟨startsAux n (n + 1) step step, by simp [starts, startsAux]⟩

lemma loopCounter_eq (step : Int) (k : Nat) : loopCounter step k = k * step := by
  induction k with
  | zero => simp [loopCounter]
  | succ n ih => simp [loopCounter, ih, add_mul]

/-- C1: the claim asserts the chunk loops read and write every voxel exactly
once, so that destination voxel (x, z, y, band) equals source voxel
(x, y, z, band), also for extents not divisible by the chunk size.  The code
violates it: on the 1 x 2 x 1 source pA, the X chunk of the Y chunk at
starty = 1 computes dx = min(pszx, xsz - starty) = 0 (line 221 reads the Y
loop variable), so the voxel at y = 1 is never read and never written and
the destination voxel (0, 0, 1, 0) keeps its initial value 0 instead of the
source value 2, while the voxel at y = 0 is transposed correctly. -/
theorem boundary_voxel_never_written :
    asVolume dstA 0 0 1 0 = 0 ∧ srcA 0 1 0 0 = 2 ∧
    asVolume dstA 0 0 1 0 ≠ srcA 0 1 0 0 ∧
    asVolume dstA 0 0 0 0 = srcA 0 0 0 0 := by decide

/-- C2: the claim asserts dx = min(pszx, Xsize - startX), depending only on
startX, never on the Y position.  The code computes min(pszx, xsz - starty)
at line 221: on pC (xsz = 10, pszx = 4), in the iteration with startx = 8
and starty = 0 it yields 4 where the true remaining X extent is 2, so the
read window startx + dx = 12 overruns the X extent 10; the dy and dz
extents (lines 189 and 200) do follow their claimed formulas. -/
theorem dx_reads_y_loop_variable :
    dxOf pC 0 = 4 ∧ min pC.pszx (pC.xsz - 8) = 2 ∧
    dxOf pC 0 ≠ min pC.pszx (pC.xsz - 8) ∧
    pC.xsz < 8 + dxOf pC 0 ∧
    dyOf pC 8 = min pC.pszy (pC.ysz - 8) ∧
    dzOf pC 0 = min pC.psz (pC.zsz - 0) := by decide

/-- C5: the claim asserts that transposing the transposed output again
reproduces the original voxel values exactly.  The code violates it through
the same line 221 defect: on the 1 x 2 x 1 source pA the first pass never
writes the y = 1 slice, and the second pass (configuration pB, the produced
extents and block sizes) faithfully copies the corrupted value, so the
round trip returns 0 at voxel (0, 1, 0, 0) where the original holds 2; the
voxel (0, 0, 0, 0) survives the round trip. -/
theorem round_trip_not_identity :
    asVolume dstB 0 1 0 0 ≠ srcA 0 1 0 0 ∧
    asVolume dstB 0 0 0 0 = srcA 0 0 0 0 ∧ srcA 0 1 0 0 = 2 := by decide

/-- C6: the claim asserts that a failed source open ends the process with a
nonzero exit code, after a diagnostic and with no destination created.  The
code emits the diagnostic and creates nothing, but line 67 returns 0, the
success code, so the exit code part fails. -/
theorem open_failure_returns_success_code :
    mainExit envOpenFail = 0 ∧ emitsOpenDiagnostic envOpenFail = true ∧
    createsDest envOpenFail = false := by decide

/-- C4 counterexample: on a two band destination slice with a no-data value
and statistics present on the source band 1, band 2 of the created slice
carries neither, contradicting the claim that the values are set on every
band. -/
theorem metadata_absent_on_second_band :
    createdSliceBandMeta true 7 true (1, 2, 3, 4) 2 = (none, none) ∧
    createdSliceBandMeta true 7 true (1, 2, 3, 4) 1 = (some 7, some (1, 2, 3, 4)) ∧
    (((none, none) : Option Int × Option (Int × Int × Int × Int))
      ≠ (some 7, some (1, 2, 3, 4))) := by decide

/-- C4 amended: the no-data value and statistics read from the source band 1
are set on band 1 only of every destination slice; every other band of the
created slice is left without them. -/
theorem metadata_set_only_on_band_one (hasNoData : Bool) (nd : Int)
    (hasStats : Bool) (st : Int × Int × Int × Int) (band : Nat) (hband : band ≠ 1) :
    createdSliceBandMeta hasNoData nd hasStats st band = (none, none) ∧
    createdSliceBandMeta hasNoData nd hasStats st 1 =
      ((if hasNoData then some nd else none), (if hasStats then some st else none)) := by
  constructor
  · simp [createdSliceBandMeta, hband]
  · simp [createdSliceBandMeta]

/-- Witness for the C4 amended theorem at band 2 with concrete values. -/
theorem metadata_set_only_on_band_one_witness :
    createdSliceBandMeta true 7 true (1, 2, 3, 4) 3 = (none, none) ∧
    createdSliceBandMeta true 7 true (1, 2, 3, 4) 1 = (some 7, some (1, 2, 3, 4)) :=
  metadata_set_only_on_band_one true 7 true (1, 2, 3, 4) 3 (by decide)

/-- C7 counterexample: a source whose ZSIZE key is present with value 0 is
not rejected; the guard of line 76 only tests presence, so the run passes
every check and main returns 0 rather than a diagnostic nonzero exit. -/
theorem zero_zsize_source_accepted :
    envZeroZsize.zsizePresent = true ∧ envZeroZsize.zsizeVal = 0 ∧
    rejectedNot3D envZeroZsize = false ∧ reachesLoops envZeroZsize = true ∧
    mainExit envZeroZsize = 0 := by decide

/-- C7 amended: only a source whose ZSIZE metadata key is absent is rejected
(exit code 2, before the loops); when the key is present its parsed value is
never tested, so a non positive value such as 0 passes the shape check. -/
theorem only_missing_zsize_rejected (e : Env) (hd : e.driverFound = true)
    (hf : e.fnameCount = 2) (ho : e.openOk = true) (hm : e.isMRF = true) :
    (e.zsizePresent = false → mainExit e = 2 ∧ reachesLoops e = false) ∧
    (e.zsizePresent = true → rejectedNot3D e = false) := by
  constructor
  · intro hz
    constructor
    · simp [mainExit, hd, hf, ho, hm, hz]
    · simp [reachesLoops, hz]
  · intro hz
    simp [rejectedNot3D, hz]

/-- Witness for the C7 amended theorem: the missing-key environment is
rejected with exit 2, and the present-but-zero environment is not. -/
theorem only_missing_zsize_rejected_witness :
    (mainExit envNoZsize = 2 ∧ reachesLoops envNoZsize = false) ∧
    rejectedNot3D envZeroZsize = false :=
  ⟨(only_missing_zsize_rejected envNoZsize rfl rfl rfl rfl).1 rfl,
   (only_missing_zsize_rejected envZeroZsize rfl rfl rfl rfl).2 rfl⟩

/-- C3 counterexample: on pD (psz = 2, pszy = 3, pszx = 5, one byte
elements) at the partial Y chunk starty = 6 (dy = 1), the write call for
band 1, row 0, column 0 of slot endz = 0 reads the buffer at byte offset 30,
the nominal band stride psz * pszy * pszx, while the formula of the claim
(band stride dy * psz * pszx, depth stride psz * pszx) predicts offsets
built from 10; the depth stride the write call passes is z_stride = 15, also
not the claimed psz * pszx = 10. -/
theorem write_strides_differ_from_spec_formula :
    writeCall pD idBuf 0 6 0 5 2 0 zeroDst (6, 0, 0, 1) = 30 ∧
    band_stride pD.psz pD.pszy pD.pszx pD.dtsz = 30 ∧
    (specWriteStrides (dyOf pD 6) pD.psz pD.pszx pD.dtsz).2.2.2 = 10 ∧
    z_stride pD.pszy pD.pszx pD.dtsz = 15 ∧
    (specWriteStrides (dyOf pD 6) pD.psz pD.pszx pD.dtsz).2.2.1 = 10 ∧
    ((30 : Nat) ≠ 10 ∧ (15 : Nat) ≠ 10) := by decide

/-- C3 amended: every destination write addresses the working buffer with
the same strides the reads use, all computed from the nominal chunk shape
and independent of the current Y chunk size: the value written to slice
starty + endz at (startx + c, startz + r, band b) is the buffer byte at
endz * line_stride + b * band_stride + r * z_stride + c * pix_stride, with
band stride psz * pszy * pszx * dtsz and row (depth) stride
pszy * pszx * dtsz. -/
theorem write_addresses_buffer_with_nominal_strides {α : Type} (p : Params)
    (buf : Buf α) (dst : Dst α) (startz starty startx dx dz endz b r c : Nat)
    (hb : b < p.csz) (hr : r < dz) (hc : c < dx) :
    writeCall p buf startz starty startx dx dz endz dst
        (starty + endz, startx + c, startz + r, b)
      = buf (endz * line_stride p.pszx p.dtsz
          + b * band_stride p.psz p.pszy p.pszx p.dtsz
          + r * z_stride p.pszy p.pszx p.dtsz
          + c * pix_stride p.dtsz) := by
  unfold writeCall
  refine foldl_update_mem
    (fun t => (starty + endz, startx + t.2.2, startz + t.2.1, t.1))
    (fun t => buf (endz * line_stride p.pszx p.dtsz
      + t.1 * band_stride p.psz p.pszy p.pszx p.dtsz
      + t.2.1 * z_stride p.pszy p.pszx p.dtsz
      + t.2.2 * pix_stride p.dtsz))
    (tripleRange p.csz dz dx) dst (b, r, c)
    (mem_tripleRange.mpr ⟨hb, hr, hc⟩) ?_
  rintro ⟨b1, r1, c1⟩ hmem hkey
  simp only [Prod.mk.injEq] at hkey ⊢
  omega

/-- Witness for the C3 amended theorem on pD at the partial Y chunk. -/
theorem write_addresses_buffer_with_nominal_strides_witness :
    writeCall pD idBuf 0 6 0 5 2 0 zeroDst (6 + 0, 0 + 0, 0 + 0, 1)
      = idBuf (0 * line_stride pD.pszx pD.dtsz
          + 1 * band_stride pD.psz pD.pszy pD.pszx pD.dtsz
          + 0 * z_stride pD.pszy pD.pszx pD.dtsz
          + 0 * pix_stride pD.dtsz) :=
  write_addresses_buffer_with_nominal_strides pD idBuf zeroDst 0 6 0 5 2 0 1 0 0
    (by decide) (by decide) (by decide)

/-- C8 counterexample: on the 1 x 1 x 1 configuration pE with verbose
disabled, the run still prints the Processing line of its one chunk, because
line 222 is not guarded by the verbose flag. -/
theorem chunk_line_printed_without_verbose :
    printedChunkLines false pE = [(0, 0, 0)] ∧ printedChunkLines false pE ≠ [] := by decide

/-- C8 amended: the per-chunk Processing lines are printed identically on
every run, verbose or not, and with all three extents positive at least the
chunk (0, 0, 0) is printed even with verbose disabled; only the creation
option dump of lines 157-163 is conditional on verbose. -/
theorem chunk_printing_ignores_verbose (v : Bool) (p : Params)
    (copt : List String) (hx : 0 < p.xsz) (hy : 0 < p.ysz) (hz : 0 < p.zsz) :
    printedChunkLines v p = printedChunkLines true p ∧
    (0, 0, 0) ∈ printedChunkLines false p ∧
    printedOptionLines false copt = [] ∧
    printedOptionLines true copt = copt := by
  refine ⟨rfl, ?_, rfl, rfl⟩
  obtain ⟨tz, hmz⟩ := @starts_head p.zsz p.psz hz
  obtain ⟨ty, hmy⟩ := @starts_head p.ysz p.pszy hy
  obtain ⟨tx, hmx⟩ := @starts_head p.xsz p.pszx hx
  show (0, 0, 0) ∈ chunkTriples p
  unfold chunkTriples
  rw [hmz, hmy, hmx]
  have hgx : ∀ (starty startz : Nat) (acc : List (Nat × Nat × Nat)) (sx : Nat),
      acc ⊆ acc ++ [(sx, starty, startz)] := by
    intro starty startz acc sx
    exact List.subset_append_left _ _
  have hgy : ∀ (startz : Nat) (acc : List (Nat × Nat × Nat)) (sy : Nat),
      acc ⊆ (0 :: tx).foldl (fun acc startx => acc ++ [(startx, sy, startz)]) acc := by
    intro startz acc sy
    exact subset_foldl _ (hgx sy startz) _ _
  have hgz : ∀ (acc : List (Nat × Nat × Nat)) (sz : Nat),
      acc ⊆ (0 :: ty).foldl
        (fun acc starty => (0 :: tx).foldl
          (fun acc startx => acc ++ [(startx, starty, sz)]) acc) acc := by
    intro acc sz
    exact subset_foldl _ (hgy sz) _ _
  simp only [List.foldl_cons]
  refine subset_foldl _ hgz tz _ ?_
  refine subset_foldl _ (hgy 0) ty _ ?_
  refine subset_foldl _ (hgx 0 0) tx _ ?_
  simp

/-- Witness for the C8 amended theorem on the all-ones configuration. -/
theorem chunk_printing_ignores_verbose_witness :
    printedChunkLines false pE = printedChunkLines true pE ∧
    (0, 0, 0) ∈ printedChunkLines false pE ∧
    printedOptionLines false ["COMPRESS=LERC"] = [] ∧
    printedOptionLines true ["COMPRESS=LERC"] = ["COMPRESS=LERC"] :=
  chunk_printing_ignores_verbose false pE ["COMPRESS=LERC"]
    (by decide) (by decide) (by decide)

/-- C9: a negative page size given through -z is kept (the default of
lines 104-106 replaces only an exact zero), and with it the Z loop guard
startz less than zsz stays true after every increment, so the loop of
line 188 never exits on a positive Z extent; with a positive step every
such loop leaves after finitely many increments. -/
theorem negative_page_size_diverges :
    (∀ pszArg pszx : Int, pszArg < 0 → effPsz pszArg pszx = pszArg) ∧
    (∀ step bound : Int, step < 0 → 0 < bound →
      ∀ k : Nat, loopCounter step k < bound) ∧
    (∀ step bound : Int, 0 < step → ∃ k : Nat, ¬ loopCounter step k < bound) := by
  refine ⟨?_, ?_, ?_⟩
  · intro a x h
    unfold effPsz
    rw [if_neg (by omega : ¬ a = 0)]
  · intro step bound hs hb k
    rw [loopCounter_eq]
    have hk : (0 : Int) ≤ (k : Int) := Int.natCast_nonneg k
    have := mul_nonpos_iff.mpr (Or.inl ⟨hk, le_of_lt hs⟩)
    omega
  · intro step bound hs
    refine ⟨bound.toNat, ?_⟩
    rw [loopCounter_eq]
    have h1 : ((bound.toNat : Int)) * 1 ≤ ((bound.toNat : Int)) * step :=
      mul_le_mul_of_nonneg_left (by omega) (Int.natCast_nonneg _)
    have h2 : bound ≤ ((bound.toNat : Int)) := Int.self_le_toNat bound
    omega

/-- Witness for C9 at page size -3: the default does not replace it, after
five increments the counter is still below a Z extent of 7, and the positive
step 2 leaves a bound of 7. -/
theorem negative_page_size_diverges_witness :
    effPsz (-3) 4 = -3 ∧ loopCounter (-3) 5 < 7 ∧
    ∃ k : Nat, ¬ loopCounter 2 k < 7 :=
  ⟨negative_page_size_diverges.1 (-3) 4 (by decide),
   negative_page_size_diverges.2.1 (-3) 7 (by decide) (by decide) 5,
   negative_page_size_diverges.2.2 2 7 (by decide)⟩

/-- C10: a null handle returned by the per-slice open (line 195) or create
(line 206) is stored in its vector unchecked, and the stored entry, still
null, is what the strided read (line 228), the strided write (line 244) and
the close loops (lines 259-263) receive. -/
theorem null_handles_stored_and_passed (openSlice createSlice : Nat → Option Nat)
    (startz dz starty dy k j : Nat) (hk : k < dz) (hj : j < dy)
    (hopen : openSlice (startz + k) = none)
    (hcreate : createSlice (starty + j) = none) :
    (inhList openSlice startz dz).getD k none = none ∧
    none ∈ readPassHandles openSlice startz dz ∧
    none ∈ closePassHandles (inhList openSlice startz dz) ∧
    (outhList createSlice starty dy).getD j none = none ∧
    none ∈ writePassHandles createSlice starty dy ∧
    none ∈ closePassHandles (outhList createSlice starty dy) := by
  have hin : (inhList openSlice startz dz).getD k none = none := by
    rw [inhList, List.getD_eq_getElem?_getD, List.getElem?_map, List.getElem?_range hk]
    simpa using hopen
  have hout : (outhList createSlice starty dy).getD j none = none := by
    rw [outhList, List.getD_eq_getElem?_getD, List.getElem?_map, List.getElem?_range hj]
    simpa using hcreate
  refine ⟨hin, ?_, ?_, hout, ?_, ?_⟩
  · exact List.mem_map.mpr ⟨k, List.mem_range.mpr hk, hin⟩
  · refine List.mem_map.mpr ⟨k, List.mem_range.mpr ?_, hin⟩
    simpa [inhList] using hk
  · exact List.mem_map.mpr ⟨j, List.mem_range.mpr hj, hout⟩
  · refine List.mem_map.mpr ⟨j, List.mem_range.mpr ?_, hout⟩
    simpa [outhList] using hj

/-- Witness for C10 with open and create that fail on every slice. -/
theorem null_handles_stored_and_passed_witness :
    ((inhList (fun _ => none) 0 1).getD 0 none = none ∧
      none ∈ readPassHandles (fun _ => none) 0 1 ∧
      none ∈ closePassHandles (inhList (fun _ => none) 0 1) ∧
      (outhList (fun _ => none) 0 1).getD 0 none = none ∧
      none ∈ writePassHandles (fun _ => none) 0 1 ∧
      none ∈ closePassHandles (outhList (fun _ => none) 0 1)) :=
  null_handles_stored_and_passed (fun _ => none) (fun _ => none) 0 1 0 1 0 0
    (by decide) (by decide) rfl rfl
